import Mathlib

/-!
Verification development for the MENTORSHIP backend.

The definitions below are a shallow embedding of the authentication and
credential-lifecycle subsystem of the repository: the controllers in
`src/controller/Auth.js` (register, login, logout, getUserData,
getCurrentUser, updateProfile), the mentor listing in
`src/controller/mentorcontroller.js`, and the mongoose schema in
`src/models/authSchema.js`.  External collaborators (the document store,
the bcryptjs hasher, the jsonwebtoken signer) are modelled as explicit
Lean functions; HTTP responses are modelled as a record of status code,
success flag, message, optional errors list and optional JSON data.
-/

namespace Mentorship

/-! ## JSON values and key collection

Express serializes response bodies with `res.json`; we model the serialized
data as a small JSON value type and collect every object key appearing in a
value, so that secrecy properties ("the password digest is absent from the
response body") can be stated as key non-membership. -/

/-- A JSON value as produced by the controllers' response bodies. -/
inductive JsVal where
  | str : String → JsVal
  | num : Nat → JsVal
  | boolean : Bool → JsVal
  | arr : List JsVal → JsVal
  | obj : List (String × JsVal) → JsVal
deriving Repr

mutual

/-- All object keys occurring anywhere in a JSON value. -/
def jsKeys : JsVal → List String
  | JsVal.obj fields => jsKeysFields fields
  | JsVal.arr vs => jsKeysList vs
  | _ => []

/-- All object keys occurring in a list of object fields. -/
def jsKeysFields : List (String × JsVal) → List String
  | [] => []
  | (k, v) :: rest => k :: (jsKeys v ++ jsKeysFields rest)

/-- All object keys occurring in a list of JSON values. -/
def jsKeysList : List JsVal → List String
  | [] => []
  | v :: rest => jsKeys v ++ jsKeysList rest

end

/-! ## JavaScript string primitives

The controllers use `String.prototype.trim` and `String.prototype.toLowerCase`;
we model them directly on the character list of a Lean string so that they
evaluate by `rfl` on literals. -/

/-- Model of the JavaScript `trim()`: drop whitespace from both ends. -/
def jsTrim (s : String) : String :=
  String.mk (((s.toList.dropWhile Char.isWhitespace).reverse.dropWhile
    Char.isWhitespace).reverse)

/-- Model of the JavaScript `toLowerCase()` on the ASCII range used here. -/
def jsToLower (s : String) : String :=
  String.mk (s.toList.map Char.toLower)

/-! ## Validation helpers of src/controller/Auth.js -/

/-- One character of the class `[^\s@]` used by the email regular expression
in `validateEmail` (src/controller/Auth.js line 17). -/
def emailChar (c : Char) : Bool := !c.isWhitespace && c != '@'

/-- Backtracking matcher for `p*` followed by the continuation `k`. -/
def starThen (p : Char → Bool) (k : List Char → Bool) : List Char → Bool
  | [] => k []
  | c :: rest => k (c :: rest) || (p c && starThen p k rest)

/-- Backtracking matcher for `p+` followed by the continuation `k`. -/
def plusThen (p : Char → Bool) (k : List Char → Bool) : List Char → Bool
  | [] => false
  | c :: rest => p c && starThen p k rest

/-- Translation of `validateEmail` (src/controller/Auth.js lines 16-19): the
anchored regular expression over the whole string, matching
one-or-more `[^\s@]`, a literal `@`, one-or-more `[^\s@]`, a literal `.`,
and one-or-more `[^\s@]`. -/
def validateEmail (email : String) : Bool :=
  plusThen emailChar
    (fun cs1 =>
      match cs1 with
      | '@' :: cs2 =>
        plusThen emailChar
          (fun cs3 =>
            match cs3 with
            | '.' :: cs4 => plusThen emailChar List.isEmpty cs4
            | _ => false) cs2
      | _ => false)
    email.toList

/-- Translation of `validatePassword` (src/controller/Auth.js lines 21-23):
the password is truthy and at least 6 characters long. -/
def validatePassword (password : String) : Bool :=
  password != "" && decide (6 ≤ password.length)

/-- `Object.values(ROLES)` for the `ROLES` constant of src/controller/Auth.js
lines 9-13: `{ USER: 'user', ADMIN: 'admin', MENTOR: 'mentor' }`. -/
def rolesValues : List String := ["user", "admin", "mentor"]

/-- Translation of `validateRole` (src/controller/Auth.js lines 25-27). -/
def validateRole (role : String) : Bool := rolesValues.contains role

/-- The `enum` of the `role` path in src/models/authSchema.js lines 18-23. -/
def schemaRoleEnum : List String := ["admin", "mentor", "mentee"]

/-! ## The account data model (src/models/authSchema.js)

A document persisted through `authSchema`.  The schema runs in mongoose
strict mode, so a saved document carries exactly the schema paths (plus the
`timestamps` pair).  The schema defines no `status` path — the login
controller nevertheless reads `user.status`, so we keep an explicit
`status` field that schema-mediated creation always leaves `none`,
mirroring the fact that strict mode discards any unknown field. -/

/-- An account document of the `Auth` collection.  Identifiers are the
string form of the ObjectId; timestamps are epoch values. -/
structure Account where
  _id : String
  name : String
  email : String
  password : String
  role : String
  bio : String
  skills : List String
  goal : String
  createdAt : Nat
  updatedAt : Nat
  lastLoginAt : Option Nat
  status : Option String
deriving Repr, DecidableEq

/-- The credential store: the list of persisted account documents. -/
abbrev Store := List Account

/-- A mentor document of the `Mentor` collection
(src/models/mentorSchema.js). -/
structure Mentor where
  _id : String
  name : String
  email : String
  password : String
  available : String
  bio : String
  topic : String
  goal : String
  createdAt : Nat
  updatedAt : Nat
deriving Repr, DecidableEq

/-! ## External collaborators: bcryptjs and jsonwebtoken

Both are third-party libraries; the controllers only call
`bcrypt.hash`, `bcrypt.compare`, and `jwt.sign`.  Token verification has no
implementation under src/ (the auth middleware file only contains route
wiring that names it), so `jwtVerify` is modelled from the spec. -/

/-- `SALT_ROUNDS` of src/controller/Auth.js line 6. -/
def saltRounds : Nat := 12

/-- Model of `bcrypt.hash` (spec 4.2 Password Hasher): the salted one-way
digest is abstracted as an injective tagged encoding of the plaintext. -/
def bcryptHash (password : String) (_cost : Nat) : String :=
  "bcrypt$" ++ password

/-- Model of `bcrypt.compare`: verification re-derives the digest. -/
def bcryptCompare (password digest : String) : Bool :=
  digest == bcryptHash password saltRounds

/-- The identity claims placed in a token payload by `jwt.sign` in
src/controller/Auth.js (lines 89-101 and 185-197): `id`, `email`, `role`. -/
structure Claims where
  id : String
  email : String
  role : String
deriving Repr, DecidableEq

/-- A signed session token: payload claims, issued-at, expiry, issuer tag,
subject, and the signature over all of them. -/
structure Token where
  claims : Claims
  iat : Nat
  exp : Nat
  iss : String
  sub : String
  sig : String
deriving Repr, DecidableEq

/-- `TOKEN_EXPIRY = "3d"` of src/controller/Auth.js line 7, in seconds. -/
def tokenExpirySeconds : Nat := 3 * 24 * 60 * 60

/-- Model of the HMAC signature over a token payload with the server secret:
an injective encoding of payload and secret. -/
def mkSig (c : Claims) (iat exp : Nat) (iss sub secret : String) : String :=
  "sig(" ++ c.id ++ "," ++ c.email ++ "," ++ c.role ++ "," ++ toString iat ++
    "," ++ toString exp ++ "," ++ iss ++ "," ++ sub ++ "," ++ secret ++ ")"

/-- Model of `jwt.sign(payload, secret, { expiresIn, issuer, subject })` as
called by register and login: embeds the claims, stamps issued-at and
expiry, and signs the payload with the secret. -/
def jwtSign (c : Claims) (secret : String) (now ttlSeconds : Nat)
    (iss sub : String) : Token :=
  { claims := c, iat := now, exp := now + ttlSeconds, iss := iss, sub := sub,
    sig := mkSig c now (now + ttlSeconds) iss sub secret }

/-- Result of verifying a token (spec 4.3): valid claims or a typed failure. -/
inductive VerifyResult where
  | ok : Claims → VerifyResult
  | expired
  | invalidSignature
deriving Repr, DecidableEq

/-- Modelled from the spec: the token verifier of spec section 4.3 has no
implementation under src/ (only the jsonwebtoken library and callers appear);
`verify(token)` checks the signature with the server secret, then the
expiry against the current time, returning the embedded claims when both
pass, `EXPIRED` when the validity window has elapsed, and
`INVALID_SIGNATURE` on a signature mismatch. -/
def jwtVerify (t : Token) (secret : String) (now : Nat) : VerifyResult :=
  if t.sig == mkSig t.claims t.iat t.exp t.iss t.sub secret then
    if now < t.exp then VerifyResult.ok t.claims else VerifyResult.expired
  else VerifyResult.invalidSignature

/-! ## HTTP responses and cookie effects -/

/-- The JSON response shape produced by `sendSuccessResponse` and
`sendErrorResponse` (src/controller/Auth.js lines 30-40), together with the
HTTP status code it is sent with. -/
structure Response where
  status : Nat
  success : Bool
  message : String
  errors : Option (List String)
  data : Option JsVal
deriving Repr

/-- Translation of `sendSuccessResponse` (src/controller/Auth.js lines
30-34). -/
def sendSuccessResponse (message : String) (data : Option JsVal)
    (statusCode : Nat) : Response :=
  { status := statusCode, success := true, message := message,
    errors := none, data := data }

/-- Translation of `sendErrorResponse` (src/controller/Auth.js lines
36-40). -/
def sendErrorResponse (message : String) (statusCode : Nat)
    (errors : Option (List String)) : Response :=
  { status := statusCode, success := false, message := message,
    errors := errors, data := none }

/-- The keys serialized in a response body's `data` member. -/
def respKeys (r : Response) : List String :=
  match r.data with
  | some v => jsKeys v
  | none => []

/-- A cookie effect performed via `res.cookie` or `res.clearCookie`. -/
inductive CookieAction where
  | set : String → Token → CookieAction
  | clear : String → CookieAction
deriving Repr, DecidableEq

/-! ## The mongoose save of an account document

`user.save()` first runs document validation against `authSchema`
(`required` on name/email/password/role and the `enum` on role); a failure
surfaces as a `ValidationError`.  A document passing validation is written,
and the unique index on `email` rejects a duplicate with driver error code
11000. -/

/-- The validation error messages `authSchema` produces for a document:
the `required` paths and the `role` enum
(src/models/authSchema.js lines 3-23). -/
def schemaValidationErrors (a : Account) : List String :=
  (if a.name == "" then ["Path name is required."] else []) ++
  (if a.email == "" then ["Path email is required."] else []) ++
  (if a.password == "" then ["Path password is required."] else []) ++
  (if a.role == "" then ["Path role is required."]
   else if schemaRoleEnum.contains a.role then []
   else [a.role ++ " is not a valid enum value for path role."])

/-- Outcome of `document.save()`: success, the E11000 duplicate-key error
from the unique email index, or a `ValidationError` with its messages. -/
inductive SaveResult where
  | ok
  | dupKey
  | invalid : List String → SaveResult
deriving Repr, DecidableEq

/-- Model of `user.save()` against a store state: schema validation first,
then the unique index on the normalized email. -/
def dbSave (s : Store) (a : Account) : SaveResult :=
  if (schemaValidationErrors a).isEmpty then
    if s.any (fun b => b.email == a.email) then SaveResult.dupKey
    else SaveResult.ok
  else SaveResult.invalid (schemaValidationErrors a)

/-! ## register (src/controller/Auth.js lines 43-143) -/

/-- The request body of a registration: any of the four fields may be
absent from the JSON body. -/
structure RegisterReq where
  name : Option String
  email : Option String
  password : Option String
  role : Option String
deriving Repr, DecidableEq

/-- The sanitized user view returned by a successful registration
(src/controller/Auth.js lines 113-126). -/
def registerView (u : Account) : JsVal :=
  JsVal.obj [("user", JsVal.obj
    [("id", JsVal.str u._id), ("name", JsVal.str u.name),
     ("email", JsVal.str u.email), ("role", JsVal.str u.role),
     ("createdAt", JsVal.num u.createdAt)])]

/-- The normalized email of a registration request:
`email.toLowerCase().trim()` of the email field, or the empty string when
the field is absent (an absent email never reaches normalization). -/
def reqNormEmail (req : RegisterReq) : String :=
  match req.email with
  | some e => jsTrim (jsToLower e)
  | none => ""

/-- Translation of `register` (src/controller/Auth.js lines 43-143).

The store is passed as two snapshots to model the race the spec calls out:
`sFind` is the state the `findOne` pre-check reads, `sSave` the state the
`save` runs against (a concurrent registration may have committed in
between; a sequential call passes the same store twice).  `now` stamps the
mongoose timestamps and the token, `freshId` is the ObjectId minted for the
new document, and `secret` is `process.env.JWT_SECRET_KEY`.  The result is
the HTTP response, the store after the call, and the cookie effects. -/
def register (sFind sSave : Store) (req : RegisterReq) (now : Nat)
    (freshId : String) (secret : String) :
    Response × Store × List CookieAction :=
  match req.name, req.email, req.password with
  | some name, some email, some password =>
    let role := req.role.getD "user"
    if jsTrim name == "" || jsTrim email == "" || password == "" || role == ""
    then (sendErrorResponse "All fields are required" 400 none, sSave, [])
    else if !(validateEmail email) then
      (sendErrorResponse "Please provide a valid email address" 400 none,
       sSave, [])
    else if !(validatePassword password) then
      (sendErrorResponse "Password must be at least 6 characters long" 400
        none, sSave, [])
    else if !(validateRole role) then
      (sendErrorResponse "Invalid role specified" 400 none, sSave, [])
    else if (jsTrim name).length < 2 then
      (sendErrorResponse "Name must be at least 2 characters long" 400 none,
       sSave, [])
    else
      match sFind.find? (fun a => a.email == jsTrim (jsToLower email)) with
      | some _ =>
        (sendErrorResponse "User already exists with this email" 409 none,
         sSave, [])
      | none =>
        let hashedPassword := bcryptHash password saltRounds
        let user : Account :=
          { _id := freshId, name := jsTrim name,
            email := jsTrim (jsToLower email), password := hashedPassword,
            role := role, bio := "", skills := [], goal := "",
            createdAt := now, updatedAt := now, lastLoginAt := none,
            status := none }
        match dbSave sSave user with
        | SaveResult.invalid errs =>
          (sendErrorResponse "Validation failed" 400 (some errs), sSave, [])
        | SaveResult.dupKey =>
          (sendErrorResponse "User with this email already exists" 409 none,
           sSave, [])
        | SaveResult.ok =>
          let token := jwtSign
            { id := user._id, email := user.email, role := user.role }
            secret now tokenExpirySeconds "abtech-beacon" user._id
          (sendSuccessResponse "User registered successfully"
            (some (registerView user)) 201,
           user :: sSave, [CookieAction.set "token" token])
  | _, _, _ => (sendErrorResponse "All fields are required" 400 none, sSave, [])

/-! ## login and logout (src/controller/Auth.js lines 146-246) -/

/-- The request body of a login: either field may be absent. -/
structure LoginReq where
  email : Option String
  password : Option String
deriving Repr, DecidableEq

/-- An optional `lastLoginAt` field: `JSON.stringify` drops a key whose
value is `undefined`. -/
def optNumField (k : String) (o : Option Nat) : List (String × JsVal) :=
  match o with
  | some n => [(k, JsVal.num n)]
  | none => []

/-- The sanitized user view returned by a successful login
(src/controller/Auth.js lines 209-221). -/
def loginView (a : Account) : JsVal :=
  JsVal.obj [("user", JsVal.obj
    ([("id", JsVal.str a._id), ("name", JsVal.str a.name),
      ("email", JsVal.str a.email), ("role", JsVal.str a.role)] ++
      optNumField "lastLoginAt" a.lastLoginAt))]

/-- Translation of `login` (src/controller/Auth.js lines 146-227):
presence and format checks, case-insensitive lookup, the (dead for
schema-conformant documents) suspension gate, bcrypt verification, token
issuance and cookie.  The assignment `user.lastLoginAt = new Date()`
writes a property that is not an `authSchema` path: under strict mode it
only lands on the in-memory document object — the response view reads it
back — and never enters the schema state, so the subsequent `save()` has
no modified path and persists nothing.  The store is therefore returned
unchanged, and `updatedAt` is not bumped either. -/
def login (s : Store) (req : LoginReq) (now : Nat) (secret : String) :
    Response × Store × List CookieAction :=
  match req.email, req.password with
  | some email, some password =>
    if jsTrim email == "" || password == "" then
      (sendErrorResponse "Email and password are required" 400 none, s, [])
    else if !(validateEmail email) then
      (sendErrorResponse "Please provide a valid email address" 400 none,
       s, [])
    else
      match s.find? (fun a => a.email == jsTrim (jsToLower email)) with
      | none =>
        (sendErrorResponse "Invalid email or password" 401 none, s, [])
      | some user =>
        if user.status == some "suspended" then
          (sendErrorResponse
            "Account has been suspended. Please contact support." 403 none,
           s, [])
        else if !(bcryptCompare password user.password) then
          (sendErrorResponse "Invalid email or password" 401 none, s, [])
        else
          let user' := { user with lastLoginAt := some now }
          let token := jwtSign
            { id := user._id, email := user.email, role := user.role }
            secret now tokenExpirySeconds "abtech-beacon" user._id
          (sendSuccessResponse "Login successful" (some (loginView user')) 200,
           s, [CookieAction.set "token" token])
  | _, _ =>
    (sendErrorResponse "Email and password are required" 400 none, s, [])

/-- Translation of `logout` (src/controller/Auth.js lines 230-246): clears
the token cookie and touches no stored state. -/
def logout (s : Store) : Response × Store × List CookieAction :=
  (sendSuccessResponse "Logout successful" none 200, s,
   [CookieAction.clear "token"])

/-! ## getUserData, getCurrentUser, updateProfile
(src/controller/Auth.js lines 249-389) -/

/-- One hexadecimal digit, as in the character class `[0-9a-fA-F]`. -/
def hexDigit (c : Char) : Bool :=
  c.isDigit || ('a' ≤ c && c ≤ 'f') || ('A' ≤ c && c ≤ 'F')

/-- The ObjectId format check `/^[0-9a-fA-F]{24}$/`. -/
def isHex24 (id : String) : Bool :=
  id.length == 24 && id.toList.all hexDigit

/-- The safe user view of `getUserData` and `getCurrentUser`
(src/controller/Auth.js lines 265-274 and 303-311). -/
def safeUserView (a : Account) : JsVal :=
  JsVal.obj [("user", JsVal.obj
    ([("id", JsVal.str a._id), ("name", JsVal.str a.name),
      ("email", JsVal.str a.email), ("role", JsVal.str a.role),
      ("createdAt", JsVal.num a.createdAt),
      ("updatedAt", JsVal.num a.updatedAt)] ++
      optNumField "lastLoginAt" a.lastLoginAt))]

/-- Translation of `getUserData` (src/controller/Auth.js lines 249-287). -/
def getUserData (s : Store) (id : String) : Response :=
  if id == "" || !(isHex24 id) then
    sendErrorResponse "Invalid user ID format" 400 none
  else
    match s.find? (fun a => a._id == id) with
    | none => sendErrorResponse "User not found" 404 none
    | some u =>
      sendSuccessResponse "User data retrieved successfully"
        (some (safeUserView u)) 200

/-- Translation of `getCurrentUser` (src/controller/Auth.js lines 290-319):
`reqUser` is the claims object the auth middleware attached to the
request, if any. -/
def getCurrentUser (s : Store) (reqUser : Option Claims) : Response :=
  match reqUser with
  | none => sendErrorResponse "User not authenticated" 401 none
  | some c =>
    match s.find? (fun a => a._id == c.id) with
    | none => sendErrorResponse "User not found" 404 none
    | some u =>
      sendSuccessResponse "User profile retrieved successfully"
        (some (safeUserView u)) 200

/-- The full document JSON of an account as returned through
`.select("-password -__v")`: every schema path except the excluded
password (and the version key). -/
def userDocNoPasswordJson (a : Account) : JsVal :=
  JsVal.obj
    ([("_id", JsVal.str a._id), ("name", JsVal.str a.name),
      ("email", JsVal.str a.email), ("role", JsVal.str a.role),
      ("bio", JsVal.str a.bio),
      ("skills", JsVal.arr (a.skills.map JsVal.str)),
      ("goal", JsVal.str a.goal), ("createdAt", JsVal.num a.createdAt),
      ("updatedAt", JsVal.num a.updatedAt)] ++
      optNumField "lastLoginAt" a.lastLoginAt)

/-- The `findByIdAndUpdate` step of `updateProfile`
(src/controller/Auth.js lines 363-373), once the updates map is built. -/
def applyProfileUpdate (s : Store) (pid : String)
    (updName updEmail : Option String) (now : Nat) : Response × Store :=
  match s.find? (fun a => a._id == pid) with
  | none => (sendErrorResponse "User not found" 404 none, s)
  | some u =>
    let u' := { u with name := updName.getD u.name,
                       email := updEmail.getD u.email, updatedAt := now }
    let s' := s.map (fun a => if a._id == pid then u' else a)
    (sendSuccessResponse "Profile updated successfully"
      (some (JsVal.obj [("user", userDocNoPasswordJson u')])) 200, s')

/-- Translation of `updateProfile` (src/controller/Auth.js lines 322-389):
permission gate, per-field validation with early returns, the
duplicate-email check against other users, and the update. -/
def updateProfile (s : Store) (reqUserId reqUserRole : String)
    (pid : String) (name email : Option String) (now : Nat) :
    Response × Store :=
  if reqUserId != pid && reqUserRole != "admin" then
    (sendErrorResponse "Unauthorized to update this profile" 403 none, s)
  else
    let nameGiven := match name with
      | some n => jsTrim n != ""
      | none => false
    if nameGiven && decide ((jsTrim (name.getD "")).length < 2) then
      (sendErrorResponse "Name must be at least 2 characters long" 400 none,
       s)
    else
      let emailGiven := match email with
        | some e => jsTrim e != ""
        | none => false
      if emailGiven && !(validateEmail (email.getD "")) then
        (sendErrorResponse "Please provide a valid email address" 400 none, s)
      else
        let updName := if nameGiven then some (jsTrim (name.getD "")) else none
        let updEmail :=
          if emailGiven then some (jsTrim (jsToLower (email.getD "")))
          else none
        if updName.isNone && updEmail.isNone then
          (sendErrorResponse "No valid fields to update" 400 none, s)
        else
          match updEmail with
          | some em =>
            if s.any (fun b => b.email == em && b._id != pid) then
              (sendErrorResponse "Email is already taken" 409 none, s)
            else applyProfileUpdate s pid updName updEmail now
          | none => applyProfileUpdate s pid updName updEmail now

/-! ## Mentor listing (src/controller/mentorcontroller.js lines 262-325)

The database query `MentorModel.find(filter).select('-password -__v')`
with its sort, skip and limit is modelled by the list of documents it
returns (the spec places filtering and pagination mechanics out of scope);
the `select` excluding the password path is reflected in the per-document
serializer. -/

/-- A mentor document as returned by `.select('-password -__v').lean()`. -/
def mentorDocNoPasswordJson (m : Mentor) : JsVal :=
  JsVal.obj
    [("_id", JsVal.str m._id), ("name", JsVal.str m.name),
     ("email", JsVal.str m.email), ("available", JsVal.str m.available),
     ("bio", JsVal.str m.bio), ("topic", JsVal.str m.topic),
     ("goal", JsVal.str m.goal), ("createdAt", JsVal.num m.createdAt),
     ("updatedAt", JsVal.num m.updatedAt)]

/-- Translation of the response of `getMentors`
(src/controller/mentorcontroller.js lines 306-319): the selected page of
mentor documents plus the pagination object. -/
def getMentors (queryResult : List Mentor)
    (pageNum totalPages totalMentors : Nat) : Response :=
  sendSuccessResponse "Mentors retrieved successfully"
    (some (JsVal.obj
      [("mentors", JsVal.arr (queryResult.map mentorDocNoPasswordJson)),
       ("pagination", JsVal.obj
         [("currentPage", JsVal.num pageNum),
          ("totalPages", JsVal.num totalPages),
          ("totalMentors", JsVal.num totalMentors),
          ("hasNextPage", JsVal.boolean (pageNum < totalPages)),
          ("hasPrevPage", JsVal.boolean (1 < pageNum))])])) 200

/-! ## Auxiliary lemmas and concrete fixtures -/

/-- The bcrypt digest of a plaintext is never the empty string, so the
password path of a registered document always passes the required check. -/
theorem bcryptHash_ne_empty (p : String) (c : Nat) : bcryptHash p c ≠ "" := by
  intro h
  have hlen : (bcryptHash p c).length = 0 := by rw [h]; rfl
  unfold bcryptHash at hlen
  rw [String.length_append] at hlen
  have h7 : "bcrypt$".length = 7 := rfl
  omega

/-- Key collection distributes over appended field lists. -/
theorem jsKeysFields_append (l1 l2 : List (String × JsVal)) :
    jsKeysFields (l1 ++ l2) = jsKeysFields l1 ++ jsKeysFields l2 := by
  induction l1 with
  | nil => rfl
  | cons kv rest ih =>
    cases kv
    simp [jsKeysFields, ih]

/-- The keys contributed by an optional numeric field. -/
theorem jsKeysFields_optNumField (k : String) (o : Option Nat) :
    jsKeysFields (optNumField k o) =
      match o with
      | some _ => [k]
      | none => [] := by
  cases o <;> rfl

/-- A list of string leaves contributes no keys. -/
theorem jsKeysList_map_str (l : List String) :
    jsKeysList (l.map JsVal.str) = [] := by
  induction l with
  | nil => rfl
  | cons x xs ih => simp [jsKeysList, jsKeys, ih]

/-- A mentor document serialized through the password-excluding select
never contributes the password key. -/
theorem password_not_in_mentor_list_keys (docs : List Mentor) :
    "password" ∉ jsKeysList (docs.map mentorDocNoPasswordJson) := by
  induction docs with
  | nil => simp [jsKeysList]
  | cons m ms ih =>
    simp only [List.map_cons, jsKeysList, mentorDocNoPasswordJson, jsKeys,
      jsKeysFields, List.mem_append]
    rintro (h | h)
    · simp at h
    · exact ih h

/-- An account whose role is the controller default `user` fails the
schema's role enum, so its validation error list is nonempty. -/
theorem schemaValidationErrors_role_user (a : Account) (h : a.role = "user") :
    (schemaValidationErrors a).isEmpty = false := by
  unfold schemaValidationErrors
  rw [h]
  rcases hn : a.name == "" <;> rcases he : a.email == "" <;>
    rcases hp : a.password == "" <;> simp [schemaRoleEnum]

/-- A document with a nonempty validation error list is rejected by save
with a `ValidationError` carrying those messages. -/
theorem dbSave_eq_invalid (s : Store) (a : Account)
    (h : (schemaValidationErrors a).isEmpty = false) :
    dbSave s a = SaveResult.invalid (schemaValidationErrors a) := by
  unfold dbSave
  rw [h]
  rfl

/-- The example registration body of the spec's scenario:
`{name:"Ada", email:"ADA@x.com", password:"Secret123", role:"mentee"}`. -/
def adaReq : RegisterReq :=
  { name := some "Ada", email := some "ADA@x.com",
    password := some "Secret123", role := some "mentee" }

/-- A registration body whose password has length 6, no upper case and no
digit. -/
def weakPwdReq : RegisterReq :=
  { name := some "Ada", email := some "a@x.com",
    password := some "abcdef", role := some "admin" }

/-- A registration body violating both the email-format and the
password-length rule. -/
def twoViolationsReq : RegisterReq :=
  { name := some "Ada", email := some "bad",
    password := some "abc", role := some "admin" }

/-- A registration body with a duplicate email and a too-short password. -/
def dupShortPwdReq : RegisterReq :=
  { name := some "Bob", email := some "ada@x.com",
    password := some "abc", role := some "admin" }

/-- An otherwise valid registration body with the role field omitted. -/
def noRoleReq : RegisterReq :=
  { name := some "Ada", email := some "a@x.com",
    password := some "Secret123", role := none }

/-- A stored account document for Ada, as the schema would persist it. -/
def adaStored : Account :=
  { _id := "507f1f77bcf86cd799439011", name := "Ada", email := "ada@x.com",
    password := bcryptHash "Secret123" saltRounds, role := "mentor",
    bio := "", skills := [], goal := "", createdAt := 0, updatedAt := 0,
    lastLoginAt := none, status := none }

/-- The stricter password policy the spec adopts (spec section 9): length
at least 8 with mixed case and a digit.  Stated from the spec's words, to
be compared against the code's `validatePassword`. -/
def specPasswordPolicy (p : String) : Bool :=
  decide (8 ≤ p.length) && p.toList.any Char.isUpper &&
    p.toList.any Char.isLower && p.toList.any Char.isDigit

/-! ## The claims -/

/-- C1: the spec's scenario registers
`{name:"Ada", email:"ADA@x.com", password:"Secret123", role:"mentee"}`
and expects 201 with the email stored lowercased.  The code instead
rejects the request with 400 `Invalid role specified`, because the
controller's role list `['user','admin','mentor']` contradicts the
schema's enum `['admin','mentor','mentee']` (whose default is `mentee`):
evaluation of `register` at the scenario's exact input, on any empty
store, with the role check failing before anything is stored. -/
theorem c1_register_mentee_rejected :
    register [] [] adaReq 0 "507f1f77bcf86cd799439011" "secret" =
      ({ status := 400, success := false,
         message := "Invalid role specified", errors := none,
         data := none }, [], []) := by rfl

/-- C4 counterexample: the registration body
`{name:"Ada", email:"bad", password:"abc", role:"admin"}` violates both
the email-format and the password-length rule, yet `register` reports
only the email error, with no errors list at all — so the response does
not list every violated rule. -/
theorem c4_counterexample :
    (register [] [] twoViolationsReq 0 "507f1f77bcf86cd799439011" "k").1 =
      { status := 400, success := false,
        message := "Please provide a valid email address",
        errors := none, data := none } := by rfl

/-- C4 amended: when a registration with all fields present has an
invalid email, `register` answers with the email error alone — status
400, that single message, and no errors list — regardless of whether the
password (or anything checked later) is also invalid: validation
short-circuits at the first violated rule. -/
theorem c4_first_violation_only
    (sF sS : Store) (n e p r : String) (now : Nat) (fid secret : String)
    (hn : jsTrim n ≠ "") (he : jsTrim e ≠ "") (hp : p ≠ "") (hr : r ≠ "")
    (hve : validateEmail e = false) :
    (register sF sS ⟨some n, some e, some p, some r⟩ now fid secret).1 =
      sendErrorResponse "Please provide a valid email address" 400 none := by
  simp [register, hn, he, hp, hr, hve, sendErrorResponse]

/-- C4 witness: the amended theorem applied to the concrete
two-violations body. -/
theorem c4_first_violation_only_witness :
    (register [] [] twoViolationsReq 0 "507f1f77bcf86cd799439011" "k").1 =
      sendErrorResponse "Please provide a valid email address" 400 none :=
  c4_first_violation_only [] [] "Ada" "bad" "abc" "admin" 0
    "507f1f77bcf86cd799439011" "k" (by decide) (by decide) (by decide)
    (by decide) (by decide)

/-- C9: `logout` touches no stored account — the store after the call is
the one before it — and only instructs the client to discard its token by
clearing the `token` cookie. -/
theorem c9_logout_stateless (s : Store) :
    logout s =
      ({ status := 200, success := true, message := "Logout successful",
         errors := none, data := none }, s,
       [CookieAction.clear "token"]) := by rfl

/-- C5: a token issued with the configured TTL verifies to its own claims
at any time strictly before expiry, and verifies to `EXPIRED` at any time
from expiry on (the TTL is 3 days = 259200 seconds).  The verifier is
modelled from the spec, as its implementation is not under src/. -/
theorem c5_token_roundtrip (c : Claims) (secret iss sub : String)
    (issuedAt now : Nat) :
    (now < issuedAt + tokenExpirySeconds →
      jwtVerify (jwtSign c secret issuedAt tokenExpirySeconds iss sub)
        secret now = VerifyResult.ok c) ∧
    (issuedAt + tokenExpirySeconds ≤ now →
      jwtVerify (jwtSign c secret issuedAt tokenExpirySeconds iss sub)
        secret now = VerifyResult.expired) := by
  constructor
  · intro hlt
    simp [jwtVerify, jwtSign, hlt]
  · intro hge
    simp [jwtVerify, jwtSign]
    omega

/-- C5 witness: the round trip at a concrete claim set, before expiry at
time 100 and at the expiry boundary 259200. -/
theorem c5_token_roundtrip_witness :
    jwtVerify (jwtSign ⟨"i1", "ada@x.com", "mentor"⟩ "k" 0
        tokenExpirySeconds "abtech-beacon" "i1") "k" 100 =
      VerifyResult.ok ⟨"i1", "ada@x.com", "mentor"⟩ ∧
    jwtVerify (jwtSign ⟨"i1", "ada@x.com", "mentor"⟩ "k" 0
        tokenExpirySeconds "abtech-beacon" "i1") "k" 259200 =
      VerifyResult.expired :=
  ⟨(c5_token_roundtrip ⟨"i1", "ada@x.com", "mentor"⟩ "k" "abtech-beacon"
      "i1" 0 100).1 (by decide),
   (c5_token_roundtrip ⟨"i1", "ada@x.com", "mentor"⟩ "k" "abtech-beacon"
      "i1" 0 259200).2 (by decide)⟩

/-- C7 counterexample: the password `abcdef` fails the spec's stricter
policy (length ≥ 8 with mixed case and a digit), yet the otherwise valid
registration carrying it succeeds with 201 — the code only requires
length ≥ 6. -/
theorem c7_counterexample :
    specPasswordPolicy "abcdef" = false ∧
    ((register [] [] weakPwdReq 0 "507f1f77bcf86cd799439011" "k").1).status
        = 201 ∧
    ((register [] [] weakPwdReq 0 "507f1f77bcf86cd799439011" "k").1).success
        = true := by
  exact ⟨by rfl, by rfl, by rfl⟩

/-- C3 counterexample: a registration whose email duplicates the stored
account `ada@x.com` but whose password is too short is answered with 400
(the password error), not with the 409 CONFLICT the claim promises for
every duplicate-email registration. -/
theorem c3_counterexample :
    ((register [adaStored] [adaStored] dupShortPwdReq 0
        "507f1f77bcf86cd799439012" "k").1).status = 400 := by rfl

/-- Saving a schema-valid document whose email is already present in the
store raises the duplicate-key error of the unique email index. -/
theorem dbSave_dupKey (s : Store) (a : Account)
    (hname : a.name ≠ "") (hemail : a.email ≠ "") (hpwd : a.password ≠ "")
    (hrole : a.role ≠ "") (henum : schemaRoleEnum.contains a.role = true)
    (hany : s.any (fun b => b.email == a.email) = true) :
    dbSave s a = SaveResult.dupKey := by
  have hmem : a.role ∈ schemaRoleEnum := by simpa using henum
  have herrs : schemaValidationErrors a = [] := by
    unfold schemaValidationErrors
    simp [hname, hemail, hpwd, hrole, hmem]
  unfold dbSave
  rw [herrs]
  simp [hany]

/-- C3 amended: for a registration that passes the controller's input
validation, a duplicate (normalized) email yields the 409 conflict both
when the pre-check sees it and — provided the document also passes schema
validation, i.e. its role is `admin` or `mentor` — when the duplicate only
appears at save time and the store's uniqueness violation is translated
into the 409; and whenever the save-time store already holds the email, no
record is created, whatever the request. -/
theorem c3_duplicate_email_conflict
    (sFind sSave : Store) (n e p r : String) (now : Nat)
    (fid secret : String)
    (hn : jsTrim n ≠ "") (he : jsTrim e ≠ "") (hp : p ≠ "") (hr : r ≠ "")
    (hve : validateEmail e = true) (hvp : validatePassword p = true)
    (hvr : validateRole r = true) (h2 : 2 ≤ (jsTrim n).length) :
    (∀ req : RegisterReq, (∃ b ∈ sSave, b.email = reqNormEmail req) →
      (register sFind sSave req now fid secret).2.1 = sSave) ∧
    (∀ u, sFind.find? (fun a => a.email == jsTrim (jsToLower e)) = some u →
      register sFind sSave ⟨some n, some e, some p, some r⟩ now fid secret =
        (sendErrorResponse "User already exists with this email" 409 none,
         sSave, [])) ∧
    (sFind.find? (fun a => a.email == jsTrim (jsToLower e)) = none →
     schemaRoleEnum.contains r = true →
     jsTrim (jsToLower e) ≠ "" →
     sSave.any (fun b => b.email == jsTrim (jsToLower e)) = true →
      register sFind sSave ⟨some n, some e, some p, some r⟩ now fid secret =
        (sendErrorResponse "User with this email already exists" 409 none,
         sSave, [])) := by
  have hnl : ¬ (jsTrim n).length < 2 := by omega
  refine ⟨?_, ?_, ?_⟩
  · rintro ⟨nm, em, pw, rl⟩ ⟨b, hb, hbe⟩
    cases nm <;> cases em <;> cases pw <;> simp only [register]
    simp only [reqNormEmail] at hbe
    repeat' split
    all_goals try rfl
    rename_i heq
    exfalso
    unfold dbSave at heq
    split at heq
    · split at heq
      · exact SaveResult.noConfusion heq
      · rename_i hanyf
        exact hanyf (List.any_eq_true.mpr ⟨b, hb, by simp [hbe]⟩)
    · exact SaveResult.noConfusion heq
  · intro u hu
    simp [register, hn, he, hp, hr, hve, hvp, hvr, hnl, hu,
      sendErrorResponse]
  · intro hfind hcontains hne hany
    have hsave : dbSave sSave
        { _id := fid, name := jsTrim n, email := jsTrim (jsToLower e),
          password := bcryptHash p saltRounds, role := r, bio := "",
          skills := [], goal := "", createdAt := now, updatedAt := now,
          lastLoginAt := none, status := none } = SaveResult.dupKey :=
      dbSave_dupKey _ _ hn hne (bcryptHash_ne_empty p saltRounds) hr
        hcontains hany
    simp [register, hn, he, hp, hr, hve, hvp, hvr, hnl, hfind, hsave,
      sendErrorResponse]

/-- C3 witness: on a save-time store already holding `ada@x.com`, a valid
registration for that email is answered 409 by the pre-check and creates
no record; the race path is exercised with an empty pre-check snapshot. -/
theorem c3_duplicate_email_conflict_witness :
    ((register [adaStored] [adaStored]
        ⟨some "Bob", some "ada@x.com", some "Secret123", some "admin"⟩ 0
        "507f1f77bcf86cd799439012" "k").2.1 = [adaStored]) ∧
    (register [adaStored] [adaStored]
        ⟨some "Bob", some "ada@x.com", some "Secret123", some "admin"⟩ 0
        "507f1f77bcf86cd799439012" "k" =
      (sendErrorResponse "User already exists with this email" 409 none,
       [adaStored], [])) ∧
    (register [] [adaStored]
        ⟨some "Bob", some "ada@x.com", some "Secret123", some "admin"⟩ 0
        "507f1f77bcf86cd799439012" "k" =
      (sendErrorResponse "User with this email already exists" 409 none,
       [adaStored], [])) := by
  have h1 := c3_duplicate_email_conflict [adaStored] [adaStored] "Bob"
    "ada@x.com" "Secret123" "admin" 0 "507f1f77bcf86cd799439012" "k"
    (by decide) (by decide) (by decide) (by decide) (by decide) (by decide)
    (by decide) (by decide)
  have h2 := c3_duplicate_email_conflict [] [adaStored] "Bob" "ada@x.com"
    "Secret123" "admin" 0 "507f1f77bcf86cd799439012" "k"
    (by decide) (by decide) (by decide) (by decide) (by decide) (by decide)
    (by decide) (by decide)
  refine ⟨?_, h1.2.1 adaStored (by rfl), h2.2.2 (by rfl) (by decide)
    (by decide) (by rfl)⟩
  exact h1.1 ⟨some "Bob", some "ada@x.com", some "Secret123", some "admin"⟩
    ⟨adaStored, by decide, by decide⟩

/-- Registration only ever inserts documents without a status, so the
schema-conformance invariant (no stored document carries a `status`) is
preserved by register. -/
theorem register_preserves_no_status (sF sS : Store) (req : RegisterReq)
    (now : Nat) (fid secret : String)
    (h : ∀ a ∈ sS, a.status = none) :
    ∀ a ∈ (register sF sS req now fid secret).2.1, a.status = none := by
  rcases req with ⟨nm, em, pw, rl⟩
  cases nm <;> cases em <;> cases pw <;> simp only [register]
  all_goals repeat' split
  all_goals try exact h
  intro a ha
  rcases List.mem_cons.mp ha with rfl | hmem
  · rfl
  · exact h a hmem

/-- Login returns the store unchanged on every branch (no schema path is
ever modified), so the schema-conformance invariant is preserved by login
as well. -/
theorem login_preserves_no_status (s : Store) (req : LoginReq) (now : Nat)
    (secret : String) (h : ∀ a ∈ s, a.status = none) :
    ∀ a ∈ (login s req now secret).2.1, a.status = none := by
  rcases req with ⟨em, pw⟩
  cases em <;> cases pw <;> simp only [login]
  all_goals repeat' split
  all_goals exact h

/-- C2: for a login whose email is present and syntactically valid, over a
store of schema-conformant documents (the schema defines no `status`
path, so no stored document is ever `suspended`; the invariant is
preserved by register and login, see the two lemmas above), the
nonexistent-email case and the failed-password-verification case produce
the very same
result: the 401 `Invalid email or password` error, an untouched store,
and no cookie. -/
theorem c2_login_invalid_credentials_uniform
    (s : Store) (e p : String) (now : Nat) (secret : String)
    (hwf : ∀ a ∈ s, a.status = none)
    (he : jsTrim e ≠ "") (hp : p ≠ "")
    (hve : validateEmail e = true)
    (hcase : s.find? (fun a => a.email == jsTrim (jsToLower e)) = none ∨
      ∃ u, s.find? (fun a => a.email == jsTrim (jsToLower e)) = some u ∧
        bcryptCompare p u.password = false) :
    login s ⟨some e, some p⟩ now secret =
      (sendErrorResponse "Invalid email or password" 401 none, s, []) := by
  rcases hcase with hnone | ⟨u, hu, hcmp⟩
  · simp [login, he, hp, hve, hnone, sendErrorResponse]
  · have hstat : u.status = none := hwf u (List.mem_of_find?_eq_some hu)
    simp [login, he, hp, hve, hu, hstat, hcmp, sendErrorResponse]

/-- C2 witness: on the store holding only Ada's document, logging in with
her email but the wrong password yields the generic 401. -/
theorem c2_login_invalid_credentials_uniform_witness :
    login [adaStored] ⟨some "ada@x.com", some "wrong"⟩ 5 "k" =
      (sendErrorResponse "Invalid email or password" 401 none,
       [adaStored], []) :=
  c2_login_invalid_credentials_uniform [adaStored] "ada@x.com" "wrong" 5 "k"
    (by decide) (by decide) (by decide) (by decide)
    (Or.inr ⟨adaStored, by rfl, by rfl⟩)

/-- C8 counterexample: Ada logs in successfully (200, success) at time 5,
yet the store afterwards is exactly the store before, and her stored
document still has no last-login timestamp — the claim's "the account's
last-login timestamp is updated" fails, because `lastLoginAt` is not an
`authSchema` path and the strict-mode save persists nothing. -/
theorem c8_counterexample :
    ((login [adaStored] ⟨some "ada@x.com", some "Secret123"⟩ 5
        "k").1.status = 200) ∧
    ((login [adaStored] ⟨some "ada@x.com", some "Secret123"⟩ 5
        "k").1.success = true) ∧
    ((login [adaStored] ⟨some "ada@x.com", some "Secret123"⟩ 5
        "k").2.1 = [adaStored]) ∧
    adaStored.lastLoginAt = none := by
  exact ⟨by rfl, by rfl, by rfl, by rfl⟩

/-- C8 amended: on a successful login a fresh token, issued at `now` over
the account's identity claims, is set as the `token` cookie, and the
response's user view reports a last-login timestamp equal to `now` — but
only in memory: the store is returned entirely unchanged, so every stored
field of the account (name, email, password hash, role, and the
last-login timestamp itself) is left as it was. -/
theorem c8_login_fresh_token_store_unchanged
    (s : Store) (e p : String) (now : Nat) (secret : String) (u : Account)
    (he : jsTrim e ≠ "") (hp : p ≠ "") (hve : validateEmail e = true)
    (hfind : s.find? (fun a => a.email == jsTrim (jsToLower e)) = some u)
    (hsusp : u.status ≠ some "suspended")
    (hcmp : bcryptCompare p u.password = true) :
    login s ⟨some e, some p⟩ now secret =
      (sendSuccessResponse "Login successful"
        (some (loginView { u with lastLoginAt := some now })) 200,
       s,
       [CookieAction.set "token"
         (jwtSign { id := u._id, email := u.email, role := u.role } secret
           now tokenExpirySeconds "abtech-beacon" u._id)]) := by
  have hsusp' : (u.status == some "suspended") = false := by
    simp [hsusp]
  simp [login, he, hp, hve, hfind, hsusp', hcmp]

/-- C8 witness: Ada's login with the right password at time 5 leaves the
store untouched, reports `lastLoginAt = 5` only in the response view, and
sets a token issued at 5. -/
theorem c8_login_fresh_token_store_unchanged_witness :
    login [adaStored] ⟨some "ada@x.com", some "Secret123"⟩ 5 "k" =
      (sendSuccessResponse "Login successful"
        (some (loginView { adaStored with lastLoginAt := some 5 })) 200,
       [adaStored],
       [CookieAction.set "token"
         (jwtSign ⟨adaStored._id, adaStored.email, adaStored.role⟩ "k" 5
           tokenExpirySeconds "abtech-beacon" adaStored._id)]) :=
  c8_login_fresh_token_store_unchanged [adaStored] "ada@x.com" "Secret123"
    5 "k" adaStored (by decide) (by decide) (by decide) (by rfl)
    (by decide) (by rfl)

/-- C7 amended: the policy the code actually enforces is length ≥ 6 and
nothing else: a registration with all fields present and a valid email is
answered with the password error exactly when the password is shorter
than 6 characters; mixed case and digits are never required. -/
theorem c7_password_policy_len6
    (sF sS : Store) (n e p r : String) (now : Nat) (fid secret : String)
    (hn : jsTrim n ≠ "") (he : jsTrim e ≠ "") (hp : p ≠ "") (hr : r ≠ "")
    (hve : validateEmail e = true) :
    ((register sF sS ⟨some n, some e, some p, some r⟩ now fid secret).1 =
        sendErrorResponse "Password must be at least 6 characters long" 400
          none) ↔
      p.length < 6 := by
  constructor
  · intro hresp
    by_contra h6
    have hvp : validatePassword p = true := by
      unfold validatePassword
      simp [hp]
      omega
    simp only [register, Option.getD] at hresp
    rw [if_neg (by simp [hn, he, hp, hr])] at hresp
    rw [if_neg (by simp [hve])] at hresp
    rw [if_neg (by simp [hvp])] at hresp
    repeat' split at hresp
    all_goals
      exact absurd (congrArg Response.message hresp)
        (by simp [sendErrorResponse, sendSuccessResponse])
  · intro h6
    have hvp : validatePassword p = false := by
      unfold validatePassword
      simp
      omega
    simp [register, hn, he, hp, hr, hve, hvp, sendErrorResponse]

/-- C7 amended witness: the 5-character password `abc12` is rejected with
the length error. -/
theorem c7_password_policy_len6_witness :
    (register [] [] ⟨some "Ada", some "a@x.com", some "abc12", some "admin"⟩
        0 "507f1f77bcf86cd799439011" "k").1 =
      sendErrorResponse "Password must be at least 6 characters long" 400
        none :=
  (c7_password_policy_len6 [] [] "Ada" "a@x.com" "abc12" "admin" 0
    "507f1f77bcf86cd799439011" "k" (by decide) (by decide) (by decide)
    (by decide) (by decide)).mpr (by decide)

/-- Saving a document whose role is the controller default `user` always
fails schema validation. -/
theorem dbSave_default_role (s : Store) (a : Account) (h : a.role = "user") :
    dbSave s a = SaveResult.invalid (schemaValidationErrors a) :=
  dbSave_eq_invalid s a (schemaValidationErrors_role_user a h)

/-- C10: a registration that omits the role field can never succeed: the
destructuring default `user` passes the controller's `validateRole` but
lies outside the schema enum `['admin','mentor','mentee']`, so the save is
rejected; in particular an otherwise fully valid request fails with the
400 `Validation failed` response of the ValidationError handler. -/
theorem c10_omitted_role_never_succeeds
    (sF sS : Store) (n e p : String) (now : Nat) (fid secret : String) :
    ((register sF sS ⟨some n, some e, some p, none⟩ now fid
        secret).1.success = false) ∧
    (jsTrim n ≠ "" → jsTrim e ≠ "" → p ≠ "" → validateEmail e = true →
     validatePassword p = true → 2 ≤ (jsTrim n).length →
     sF.find? (fun a => a.email == jsTrim (jsToLower e)) = none →
     ((register sF sS ⟨some n, some e, some p, none⟩ now fid
         secret).1.status = 400 ∧
      (register sF sS ⟨some n, some e, some p, none⟩ now fid
         secret).1.message = "Validation failed")) := by
  constructor
  · simp only [register, Option.getD]
    repeat' split
    all_goals first
      | rfl
      | (rename_i heq
         rw [dbSave_default_role _ _ rfl] at heq
         exact absurd heq (by simp))
  · intro hn he hp hve hvp h2 hfind
    have hnl : ¬ (jsTrim n).length < 2 := by omega
    constructor <;>
      simp [register, Option.getD, hn, he, hp, hve, hvp, hnl, hfind,
        dbSave_default_role, sendErrorResponse, validateRole, rolesValues]

/-- C10 witness: the otherwise valid role-less body fails with 400
`Validation failed` and no success. -/
theorem c10_omitted_role_never_succeeds_witness :
    ((register [] [] noRoleReq 0 "507f1f77bcf86cd799439011"
        "k").1.success = false) ∧
    ((register [] [] noRoleReq 0 "507f1f77bcf86cd799439011"
        "k").1.status = 400) ∧
    ((register [] [] noRoleReq 0 "507f1f77bcf86cd799439011"
        "k").1.message = "Validation failed") := by
  have h := c10_omitted_role_never_succeeds [] [] "Ada" "a@x.com"
    "Secret123" 0 "507f1f77bcf86cd799439011" "k"
  exact ⟨h.1, (h.2 (by decide) (by decide) (by decide) (by decide)
    (by decide) (by decide) (by rfl)).1,
    (h.2 (by decide) (by decide) (by decide) (by decide) (by decide)
    (by decide) (by rfl)).2⟩

/-- The update step of updateProfile never serializes the password key. -/
theorem password_not_in_applyProfileUpdate (s : Store) (pid : String)
    (un ue : Option String) (now : Nat) :
    "password" ∉ respKeys (applyProfileUpdate s pid un ue now).1 := by
  unfold applyProfileUpdate
  split
  · simp [respKeys, sendErrorResponse]
  · rename_i u hu
    simp [respKeys, sendSuccessResponse, userDocNoPasswordJson, jsKeys,
      jsKeysFields, jsKeysFields_append, jsKeysFields_optNumField,
      jsKeysList_map_str]
    cases u.lastLoginAt <;> simp

/-- C6: across every operation that returns account data — register,
login, getUserData, getCurrentUser, updateProfile and the mentor
listing — the key `password` never occurs anywhere in the serialized
response body, for every store, request and branch: the stored digest is
never written to an external representation. -/
theorem c6_password_never_serialized :
    (∀ sF sS req now fid secret,
      "password" ∉ respKeys (register sF sS req now fid secret).1) ∧
    (∀ s req now secret,
      "password" ∉ respKeys (login s req now secret).1) ∧
    (∀ s i, "password" ∉ respKeys (getUserData s i)) ∧
    (∀ s ru, "password" ∉ respKeys (getCurrentUser s ru)) ∧
    (∀ s rid rrole pid nm em now,
      "password" ∉ respKeys (updateProfile s rid rrole pid nm em now).1) ∧
    (∀ docs pageNum totalPages totalMentors,
      "password" ∉
        respKeys (getMentors docs pageNum totalPages totalMentors)) := by
  refine ⟨?_, ?_, ?_, ?_, ?_, ?_⟩
  · intro sF sS req now fid secret
    rcases req with ⟨nm, em, pw, rl⟩
    cases nm <;> cases em <;> cases pw <;> simp only [register]
    all_goals repeat' split
    all_goals
      simp [respKeys, sendErrorResponse, sendSuccessResponse, registerView,
        jsKeys, jsKeysFields]
  · intro s req now secret
    rcases req with ⟨em, pw⟩
    cases em <;> cases pw <;> simp only [login]
    all_goals repeat' split
    all_goals
      simp [respKeys, sendErrorResponse, sendSuccessResponse, loginView,
        optNumField, jsKeys, jsKeysFields, jsKeysFields_append,
        jsKeysFields_optNumField]
  · intro s i
    unfold getUserData
    repeat' split
    all_goals
      simp [respKeys, sendErrorResponse, sendSuccessResponse, safeUserView,
        jsKeys, jsKeysFields, jsKeysFields_append, jsKeysFields_optNumField]
    rename_i u _
    cases u.lastLoginAt <;> simp
  · intro s ru
    unfold getCurrentUser
    repeat' split
    all_goals
      simp [respKeys, sendErrorResponse, sendSuccessResponse, safeUserView,
        jsKeys, jsKeysFields, jsKeysFields_append, jsKeysFields_optNumField]
    rename_i u _
    cases u.lastLoginAt <;> simp
  · intro s rid rrole pid nm em now
    simp only [updateProfile]
    repeat' split
    all_goals
      first
        | apply password_not_in_applyProfileUpdate
        | simp [respKeys, sendErrorResponse]
  · intro docs pageNum totalPages totalMentors
    have hml := password_not_in_mentor_list_keys docs
    simp only [getMentors, respKeys, sendSuccessResponse, jsKeys,
      jsKeysFields, jsKeysList, List.mem_cons, List.mem_append]
    simp_all

/-- C6 witness: the password key is absent from the concrete response for
Ada's stored record. -/
theorem c6_password_never_serialized_witness :
    "password" ∉
      respKeys (getUserData [adaStored] "507f1f77bcf86cd799439011") :=
  c6_password_never_serialized.2.2.1 [adaStored] "507f1f77bcf86cd799439011"

/-- C9 witness: logging out over the concrete one-account store leaves it
untouched and clears the token cookie. -/
theorem c9_logout_stateless_witness :
    logout [adaStored] =
      ({ status := 200, success := true, message := "Logout successful",
         errors := none, data := none }, [adaStored],
       [CookieAction.clear "token"]) :=
  c9_logout_stateless [adaStored]

end Mentorship
